import Mathlib

set_option maxHeartbeats 1000000

/-!
Shallow embedding of the request pipeline of `src/example/fastapi_client/api_client.py`.

The Python file defines `ApiClient` with:
  - `request` : resolves `(self.host or "") + url.format(**path_params)`, builds an
    `AsyncRequest` and delegates to `send`;
  - `send` : invokes the middleware chain head with `(request, self.send_inner)`,
    decodes a 200 response through `_ResultMaker[type_](result=response.json()).result`
    (catching only pydantic `ValidationError` and re-raising it as
    `ApiRequestException`), and raises `UnexpectedResponse.for_response(response)`
    for any non-200 status;
  - `send_inner` : calls the underlying `httpx.AsyncClient.send`, wrapping any raised
    exception in `ApiRequestException`;
  - `add_middleware` : wraps the current chain head in a closure so that the new
    stage becomes outermost.

Python exceptions are modelled with `Except`; a raised exception is an `Except.error`
value propagating to the caller.  The httpx transport and the middleware stages are
external collaborators and are modelled as explicit function parameters.  Async
suspension has no observable effect on the values computed here, so the pipeline is
embedded as pure functions; methods are embedded in state-passing style (`self` in,
result together with the possibly-updated `self` out), with each assignment to an
attribute of `self` appearing as a record update.
-/

/-- JSON values, as returned by `response.json()` (numbers restricted to integers;
floating point is out of scope for the claims considered here). -/
inductive Json where
  | null
  | bool (b : Bool)
  | num (n : Int)
  | str (s : String)
  | arr (elems : List Json)

/-- Expected-type descriptors: the `type_` argument of `ApiClient.request`/`send`.
Python `None` is the descriptor `noneT`: the source does not special-case it, it is
passed to `_ResultMaker[type_]` like any other type, producing a pydantic field
annotated with `NoneType`, which only the JSON value `null` validates against. -/
inductive TypeDesc where
  | noneT
  | intT
  | strT
  | boolT
  | listT (elem : TypeDesc)

/-- Strict structural conformance of a JSON value to a type descriptor: the value
already has exactly the declared shape, no coercion needed.  This is the notion of
a body "conforming" used by the claims; the pydantic v1 validator itself accepts
more values through silent coercion, see `validateField`. -/
def conforms (type_ : TypeDesc) : Json → Bool :=
  match type_ with
  | .noneT => fun j => match j with | .null => true | _ => false
  | .intT => fun j => match j with | .num _ => true | _ => false
  | .strT => fun j => match j with | .str _ => true | _ => false
  | .boolT => fun j => match j with | .bool _ => true | _ => false
  | .listT elem => fun j => match j with | .arr xs => xs.all (conforms elem) | _ => false

/-- Field-level diagnostic message attached to a pydantic validation failure (the
exact text is cosmetic; what matters is that the diagnostics travel inside the
raised error). -/
def validationMsg : TypeDesc → String
  | .noneT => "none is not an allowed value"
  | .intT => "value is not a valid integer"
  | .strT => "str type expected"
  | .boolT => "value could not be parsed to a bool"
  | .listT _ => "value is not a valid list"

/-- Value of a run of decimal digit characters. -/
def digitsToNat (ds : List Char) : Nat :=
  ds.foldl (fun acc c => acc * 10 + (c.toNat - 48)) 0

/-- Python `int(s)` on a decimal string: an optional sign followed by at least one
digit (the whitespace and underscore forms Python also accepts are not modelled;
no claim depends on them). -/
def strToInt? (s : String) : Option Int :=
  match s.data with
  | [] => none
  | '-' :: ds =>
    if ds ≠ [] ∧ ds.all Char.isDigit then some (-(digitsToNat ds : Int)) else none
  | '+' :: ds =>
    if ds ≠ [] ∧ ds.all Char.isDigit then some ((digitsToNat ds : Int)) else none
  | ds => if ds.all Char.isDigit then some ((digitsToNat ds : Int)) else none

/-- Pydantic v1 `int` field validation (`int(v)` under the hood): an int is kept,
a bool becomes 0 or 1 (Python bools are ints), an integer-shaped string is parsed,
anything else fails. -/
def intFromJson : Json → Option Int
  | .num n => some n
  | .bool b => some (if b then 1 else 0)
  | .str s => strToInt? s
  | _ => none

/-- Pydantic v1 `str` field validation (`str(v)` for numeric values): a string is
kept, ints and bools are rendered the way Python prints them, anything else fails. -/
def strFromJson : Json → Option String
  | .str s => some s
  | .num n => some (toString n)
  | .bool b => some (if b then "True" else "False")
  | _ => none

/-- Pydantic v1 `bool` field validation: a bool is kept, the ints 0 and 1 and the
usual boolean-looking strings are coerced, anything else fails. -/
def boolFromJson : Json → Option Bool
  | .bool b => some b
  | .num n => if n = 0 then some false else if n = 1 then some true else none
  | .str s =>
    if s.toLower ∈ ["1", "on", "t", "true", "y", "yes"] then some true
    else if s.toLower ∈ ["0", "off", "f", "false", "n", "no"] then some false
    else none
  | _ => none

/-- Validate every element of a list with `f`, failing on the first element `f`
rejects and otherwise collecting the (possibly coerced) results in order. -/
def validateList (f : Json → Option Json) : List Json → Option (List Json)
  | [] => some []
  | x :: rest =>
    match f x with
    | none => none
    | some v =>
      match validateList f rest with
      | none => none
      | some vs => some (v :: vs)

/-- Pydantic v1 default (lenient) validation of a value against a field annotated
with the descriptor: it silently coerces coercible values (int to str, str to int,
0/1 and boolean-looking strings to bool, elementwise inside lists), a `NoneType`
annotation admits only `None`, and it returns the possibly rewritten value. -/
def validateField (t : TypeDesc) : Json → Option Json :=
  match t with
  | .noneT => fun j => match j with | .null => some .null | _ => none
  | .intT => fun j => (intFromJson j).map .num
  | .strT => fun j => (strFromJson j).map .str
  | .boolT => fun j => (boolFromJson j).map .bool
  | .listT elem => fun j =>
    match j with
    | .arr xs => (validateList (validateField elem) xs).map .arr
    | _ => none

/-- Embedding of `_ResultMaker[type_](result=body).result` (lines 17-18 of the
source): pydantic v1 validation of `result` against the generic field; on success
the `.result` attribute is the validated (possibly coerced) value, on failure
pydantic raises `ValidationError` carrying field-level diagnostics. -/
def _ResultMaker (type_ : TypeDesc) (result : Json) : Except (List String) Json :=
  match validateField type_ result with
  | some v => .ok v
  | none => .error [validationMsg type_]

/-- Raw body of an HTTP response: either bytes that parse as a JSON value, or bytes
that do not parse as JSON at all. -/
inductive Body where
  | json (j : Json)
  | raw (s : String)

/-- Python exceptions that can reach a caller of the pipeline.
`ApiRequestException` (from `fastapi_client.exceptions`) wraps another exception;
`UnexpectedResponse` carries the response diagnostics; `ValidationError` is
pydantic's; `JSONDecodeError` is raised by `response.json()` on a non-JSON body;
`KeyError`, `IndexError` and `ValueError` are raised by `str.format`;
`TransportError` stands for any exception the httpx transport raises. -/
inductive Exn where
  | ApiRequestException (cause : Exn)
  | UnexpectedResponse (status_code : Nat) (content : Body) (headers : List (String × String))
  | ValidationError (diags : List String)
  | JSONDecodeError (doc : String)
  | KeyError (key : String)
  | IndexError
  | ValueError (msg : String)
  | TransportError (msg : String)

/-- Python class name of an exception, as a caller writing `except SomeClass:`
would discriminate it. -/
def exnClass : Exn → String
  | .ApiRequestException _ => "ApiRequestException"
  | .UnexpectedResponse _ _ _ => "UnexpectedResponse"
  | .ValidationError _ => "ValidationError"
  | .JSONDecodeError _ => "JSONDecodeError"
  | .KeyError _ => "KeyError"
  | .IndexError => "IndexError"
  | .ValueError _ => "ValueError"
  | .TransportError _ => "TransportError"

/-- Which of the three kinds of the spec's error taxonomy (section 7) an exception
belongs to, if any: a transport error is an `ApiRequestException` wrapping a
non-validation exception, a validation error is an `ApiRequestException` wrapping a
pydantic `ValidationError`, and an unexpected-response error is `UnexpectedResponse`. -/
def taxonomyKind : Exn → Option String
  | .ApiRequestException (.ValidationError _) => some "ValidationError"
  | .ApiRequestException _ => some "TransportError"
  | .UnexpectedResponse _ _ _ => some "UnexpectedResponseError"
  | _ => none

/-- Embedding of `httpx.AsyncRequest(method, url, **kwargs)`: the remaining options
are kept opaque as headers plus content. -/
structure AsyncRequest where
  method : String
  url : String
  headers : List (String × String)
  content : String

/-- Embedding of `httpx.AsyncResponse`. -/
structure AsyncResponse where
  status_code : Nat
  body : Body
  headers : List (String × String)

/-- Embedding of `response.json()`: the parsed JSON value, or a raised
`JSONDecodeError` (which is not a pydantic `ValidationError`). -/
def AsyncResponse.json (response : AsyncResponse) : Except Exn Json :=
  match response.body with
  | .json j => .ok j
  | .raw s => .error (.JSONDecodeError s)

/-- Constant `starlette.status.HTTP_200_OK`. -/
def HTTP_200_OK : Nat := 200

/-- The `Send` callable type: `(request) -> response`, with a raised exception as
`Except.error`. -/
abbrev Send := AsyncRequest → Except Exn AsyncResponse

/-- The `MiddlewareT` callable type: `(request, call_next) -> response`. -/
abbrev MiddlewareT := AsyncRequest → Send → Except Exn AsyncResponse

/-- The `BaseMiddleware` identity stage installed by `__init__`: it just calls
`call_next(request)`. -/
def BaseMiddleware : MiddlewareT := fun request call_next => call_next request

/-- Pass-through request options (`**kwargs` of `ApiClient.request`). -/
structure Kwargs where
  headers : List (String × String)
  content : String

/-- The client facade state: `host`, the current middleware chain head, and the
`httpx.AsyncClient` transport instance (modelled by its observable behaviour, the
`send` operation). -/
structure ApiClient where
  host : Option String
  middleware : MiddlewareT
  _async_client : Send

/-- Embedding of `ApiClient.__init__`: the chain head starts as `BaseMiddleware`;
the transport instance created there is the external collaborator, supplied here as
a parameter. -/
def ApiClient.init (host : Option String) (transport : Send) : ApiClient :=
  { host := host, middleware := BaseMiddleware, _async_client := transport }

/-- Embedding of `ApiClient.send_inner` (lines 77-82): call the transport; any
exception `e` it raises is re-raised as `ApiRequestException(e)`. -/
def ApiClient.send_inner (st : ApiClient) : Send := fun request =>
  match st._async_client request with
  | .ok response => .ok response
  | .error e => .error (.ApiRequestException e)

/-- Modelled from the spec: the module `fastapi_client/exceptions.py` of this
repository is not under `src/`; per the spec (section 4.3 and section 7),
`UnexpectedResponse.for_response(response)` builds the unexpected-response error
carrying the status code and the raw body/headers of the response for diagnostics. -/
def UnexpectedResponse.for_response (response : AsyncResponse) : Exn :=
  .UnexpectedResponse response.status_code response.body response.headers

/-- Embedding of `ApiClient.send` (lines 68-75).  The chain head is invoked with
`(request, self.send_inner)`.  On status exactly `HTTP_200_OK` the body is decoded
through `_ResultMaker`; only pydantic `ValidationError` is caught and re-raised as
`ApiRequestException`, so a `JSONDecodeError` from `response.json()` propagates
unwrapped.  Any other status raises `UnexpectedResponse.for_response(response)`.
The method assigns no attribute of `self`, so the state comes back unchanged. -/
def ApiClient.send (st : ApiClient) (request : AsyncRequest) (type_ : TypeDesc) :
    Except Exn Json × ApiClient :=
  (match st.middleware request st.send_inner with
   | .error e => .error e
   | .ok response =>
     if response.status_code = HTTP_200_OK then
       match response.json with
       | .error e => .error e
       | .ok parsed =>
         match _ResultMaker type_ parsed with
         | .ok v => .ok v
         | .error diags => .error (.ApiRequestException (.ValidationError diags))
     else .error (UnexpectedResponse.for_response response), st)

/-- Embedding of `ApiClient.add_middleware` (lines 84-93): capture the current
chain head and install a new head that calls the new stage with a synthesized
`inner_send` forwarding to the previous head. -/
def ApiClient.add_middleware (st : ApiClient) (middleware : MiddlewareT) : ApiClient :=
  let current_middleware := st.middleware
  let new_middleware : MiddlewareT := fun request call_next =>
    let inner_send : Send := fun request2 => current_middleware request2 call_next
    middleware request inner_send
  { st with middleware := new_middleware }

/-- Errors raised by `str.format`: `KeyError` for a named placeholder absent from
the keyword mapping, `IndexError` for an automatic or positional placeholder (no
positional arguments are ever passed by `ApiClient.request`), and `ValueError` for
a malformed template. -/
inductive FmtErr where
  | keyError (key : String)
  | indexError
  | valueError (msg : String)
  deriving DecidableEq

/-- The Python exception corresponding to a `str.format` failure. -/
def FmtErr.toExn : FmtErr → Exn
  | .keyError k => .KeyError k
  | .indexError => .IndexError
  | .valueError m => .ValueError m

/-- One parsed element of a format template: a literal character or a `\x7bname\x7d`
replacement field. -/
inductive FmtItem where
  | lit (c : Char)
  | field (name : String)
  deriving DecidableEq

/-- Scanner for `str.format` templates.  In normal mode (second argument `none`)
`\x7b\x7b` and `\x7d\x7d` are escaped braces, `\x7b` opens a replacement field and a
lone `\x7d` is a `ValueError`; in field mode (`some acc`) characters accumulate
into the field name until the closing `\x7d`.  Conversion and format-spec suffixes
and attribute/index access inside field names are not modelled: the claims under
consideration only involve plain named placeholders. -/
def parseFmtAux : List Char → Option (List Char) → Except FmtErr (List FmtItem)
  | [], none => .ok []
  | [], some _ => .error (.valueError "Single \x7b encountered in format string")
  | '\x7b' :: '\x7b' :: rest, none => (parseFmtAux rest none).map (fun l => .lit '\x7b' :: l)
  | '\x7b' :: rest, none => parseFmtAux rest (some [])
  | '\x7d' :: '\x7d' :: rest, none => (parseFmtAux rest none).map (fun l => .lit '\x7d' :: l)
  | '\x7d' :: _, none => .error (.valueError "Single \x7d encountered in format string")
  | c :: rest, none => (parseFmtAux rest none).map (fun l => .lit c :: l)
  | '\x7d' :: rest, some acc =>
      (parseFmtAux rest none).map (fun l => .field (String.mk acc.reverse) :: l)
  | '\x7b' :: _, some _ => .error (.valueError "unexpected \x7b in field name")
  | c :: rest, some acc => parseFmtAux rest (some (c :: acc))

/-- Parse a format template into literal characters and replacement fields. -/
def parseFmt (template : String) : Except FmtErr (List FmtItem) :=
  parseFmtAux template.data none

/-- A field name that `str.format` treats as automatic numbering (empty) or as a
positional index (all digits) instead of a keyword lookup; with only keyword
arguments supplied, such a field raises `IndexError`. -/
def isAutoOrIndex (name : String) : Bool :=
  name.data.all (fun c => c.isDigit)

/-- Substitute the parsed items left to right, as `str.format` renders its parse
stream: the first problematic field raises.  The output is accumulated as a
character list. -/
def substItemsAux : List FmtItem → List (String × String) → Except FmtErr (List Char)
  | [], _ => .ok []
  | .lit c :: rest, ps => (substItemsAux rest ps).map (fun l => c :: l)
  | .field n :: rest, ps =>
    if isAutoOrIndex n then .error .indexError
    else
      match ps.lookup n with
      | none => .error (.keyError n)
      | some v => (substItemsAux rest ps).map (fun l => v.data ++ l)

/-- Embedding of `url.format(**path_params)` with string-valued parameters (the
value already rendered to text, as `format` renders arbitrary values).  Python
raises the first error encountered while streaming the template; here the template
is parsed first, which raises the same errors up to the order in which a malformed
tail and a missing key are reported, a difference none of the claims touch. -/
def formatMap (template : String) (params : List (String × String)) : Except FmtErr String :=
  match parseFmt template with
  | .error e => .error e
  | .ok items => (substItemsAux items params).map (fun l => String.mk l)

/-- Embedding of line 53 of the source:
`url = (self.host or "") + url.format(**path_params)`. -/
def resolveUrl (host : Option String) (url : String) (path_params : List (String × String)) :
    Except FmtErr String :=
  (formatMap url path_params).map (fun s => host.getD "" ++ s)

/-- Embedding of `ApiClient.request` (lines 48-55): default the path parameters,
resolve the URL (a formatting failure propagates and nothing is dispatched), build
the `AsyncRequest` and delegate to `send`.  The method assigns no attribute of
`self`. -/
def ApiClient.request (st : ApiClient) (type_ : TypeDesc) (method : String) (url : String)
    (path_params : Option (List (String × String))) (kwargs : Kwargs) :
    Except Exn Json × ApiClient :=
  match resolveUrl st.host url (path_params.getD []) with
  | .error e => (.error e.toExn, st)
  | .ok resolved =>
    st.send { method := method, url := resolved, headers := kwargs.headers,
              content := kwargs.content } type_

/-- Embedding of `ApiClient.request_sync` (lines 57-66): runs the asynchronous
`request` to completion on the event loop and returns its outcome; the documented
caller constraint about already-running loops is a scheduling concern with no
counterpart in this value-level model. -/
def ApiClient.request_sync (st : ApiClient) (type_ : TypeDesc) (method : String) (url : String)
    (path_params : Option (List (String × String))) (kwargs : Kwargs) :
    Except Exn Json × ApiClient :=
  st.request type_ method url path_params kwargs

/-- A parsed template item that substitution is sure to render: a literal, or a
named field whose key the parameter mapping supplies. -/
def coveredItem (params : List (String × String)) : FmtItem → Bool
  | .lit _ => true
  | .field n => !isAutoOrIndex n && (params.lookup n).isSome

/-- Every placeholder of the parsed template is named and covered by the mapping. -/
def covered (params : List (String × String)) (items : List FmtItem) : Bool :=
  items.all (coveredItem params)

/-- Every field of the parsed template is a named (keyword) placeholder. -/
def namedItem : FmtItem → Bool
  | .lit _ => true
  | .field n => !isAutoOrIndex n

/-- A literal item that is not a brace character (escaped braces in the template
would re-introduce literal braces into the output). -/
def braceFreeLit : FmtItem → Bool
  | .lit c => !(c = '\x7b' || c = '\x7d')
  | .field _ => true

/-- A string containing no brace characters. -/
def braceFreeStr (s : String) : Bool :=
  s.data.all (fun c => !(c = '\x7b' || c = '\x7d'))

/-- Prepend a marker header to a request, recording that a stage observed it. -/
def addMarkerReq (name : String) (request : AsyncRequest) : AsyncRequest :=
  { request with headers := ("x-marker", name) :: request.headers }

/-- Prepend a marker header to a response, recording that a stage observed it. -/
def addMarkerResp (name : String) (response : AsyncResponse) : AsyncResponse :=
  { response with headers := ("x-marker", name) :: response.headers }

/-- A middleware stage that marks the request on the way in and the response on
the way out (the spec's suggested observation of onion ordering). -/
def markerStage (name : String) : MiddlewareT := fun request call_next =>
  match call_next (addMarkerReq name request) with
  | .ok response => .ok (addMarkerResp name response)
  | .error e => .error e

/-- Concrete request used by the witnesses. -/
def reqDemo : AsyncRequest :=
  { method := "GET", url := "http://h/x", headers := [], content := "" }

/-- Concrete pass-through options used by the witnesses. -/
def kwargsDemo : Kwargs := { headers := [], content := "" }

/-- A 200 response whose body is the JSON list `[1, 2]`. -/
def respOkList : AsyncResponse :=
  { status_code := 200, body := .json (Json.arr [Json.num 1, Json.num 2]), headers := [] }

/-- Client whose transport answers every request with `respOkList`. -/
def clientOkList : ApiClient := ApiClient.init none (fun _ => .ok respOkList)

/-- A 404 response. -/
def resp404 : AsyncResponse :=
  { status_code := 404, body := .raw "not found", headers := [("x-h", "v")] }

/-- Client whose transport answers every request with `resp404`. -/
def client404 : ApiClient := ApiClient.init none (fun _ => .ok resp404)

/-- Client whose transport raises on every request (connection refused). -/
def clientConnRefused : ApiClient :=
  ApiClient.init none (fun _ => .error (.TransportError "connection refused"))

/-- A 200 response whose body is the JSON number `3`. -/
def respNum : AsyncResponse :=
  { status_code := 200, body := .json (Json.num 3), headers := [] }

/-- Client whose transport answers every request with `respNum`. -/
def clientNum : ApiClient := ApiClient.init none (fun _ => .ok respNum)

/-- A 200 response whose body is the JSON value `null`. -/
def respNull : AsyncResponse :=
  { status_code := 200, body := .json Json.null, headers := [] }

/-- Client whose transport answers every request with `respNull`. -/
def clientNull : ApiClient := ApiClient.init none (fun _ => .ok respNull)

/-- A 200 response whose body is not parseable as JSON. -/
def respRaw : AsyncResponse :=
  { status_code := 200, body := .raw "oops", headers := [] }

/-- Client whose transport answers every request with `respRaw`. -/
def clientRaw : ApiClient := ApiClient.init none (fun _ => .ok respRaw)

/-- Client configured with the host of the spec's URL-resolution scenario. -/
def clientScenario : ApiClient :=
  ApiClient.init (some "https://api.example.com") (fun _ => .ok respNull)

/-- The parse of the scenario template `/pets/\x7bid\x7d`. -/
def petItems : List FmtItem :=
  [.lit '/', .lit 'p', .lit 'e', .lit 't', .lit 's', .lit '/', .field "id"]


/-! Helper lemmas about the formatting embedding, shared by several claims. -/

theorem lookup_mem {ps : List (String × String)} {n v : String}
    (h : ps.lookup n = some v) : (n, v) ∈ ps := by
  induction ps with
  | nil => simp [List.lookup] at h
  | cons p rest ih =>
    obtain ⟨k, w⟩ := p
    by_cases hk : n = k
    · subst hk
      simp [List.lookup] at h
      simp [h]
    · have hb : (n == k) = false := by simp [hk]
      simp only [List.lookup, hb] at h
      exact List.mem_cons_of_mem _ (ih h)

theorem substItemsAux_covered_ok (items : List FmtItem) (ps : List (String × String))
    (hcov : covered ps items = true) :
    ∃ l, substItemsAux items ps = .ok l
      ∧ (items.all braceFreeLit = true →
         ps.all (fun p => braceFreeStr p.2) = true →
         l.all (fun c => !(c = '\x7b' || c = '\x7d')) = true) := by
  induction items with
  | nil => exact ⟨[], rfl, fun _ _ => rfl⟩
  | cons item rest ih =>
    rw [covered, List.all_cons, Bool.and_eq_true] at hcov
    obtain ⟨hitem, hrest⟩ := hcov
    obtain ⟨l, hl, hbr⟩ := ih hrest
    cases item with
    | lit c =>
      refine ⟨c :: l, by simp [substItemsAux, hl, Except.map], ?_⟩
      intro hlits hvals
      rw [List.all_cons, Bool.and_eq_true] at hlits
      rw [List.all_cons, Bool.and_eq_true]
      exact ⟨hlits.1, hbr hlits.2 hvals⟩
    | field n =>
      rw [coveredItem, Bool.and_eq_true, Bool.not_eq_true'] at hitem
      obtain ⟨hnamed, hsome⟩ := hitem
      obtain ⟨v, hv⟩ := Option.isSome_iff_exists.mp hsome
      refine ⟨v.data ++ l, by simp [substItemsAux, hnamed, hv, hl, Except.map], ?_⟩
      intro hlits hvals
      rw [List.all_cons, Bool.and_eq_true] at hlits
      rw [List.all_append, Bool.and_eq_true]
      have hvmem := List.all_eq_true.mp hvals _ (lookup_mem hv)
      exact ⟨hvmem, hbr hlits.2 hvals⟩

theorem substItemsAux_missing (items : List FmtItem) (ps : List (String × String))
    (hnamed : items.all namedItem = true)
    (hmiss : covered ps items = false) :
    ∃ k, ps.lookup k = none ∧ FmtItem.field k ∈ items
      ∧ substItemsAux items ps = .error (.keyError k) := by
  induction items with
  | nil => simp [covered] at hmiss
  | cons item rest ih =>
    rw [List.all_cons, Bool.and_eq_true] at hnamed
    rw [covered, List.all_cons] at hmiss
    cases item with
    | lit c =>
      have hrest : covered ps rest = false := by
        simpa [coveredItem, covered] using hmiss
      obtain ⟨k, hk, hmem, hsub⟩ := ih hnamed.2 hrest
      exact ⟨k, hk, List.mem_cons_of_mem _ hmem, by simp [substItemsAux, hsub, Except.map]⟩
    | field n =>
      have hn : isAutoOrIndex n = false := by
        have := hnamed.1
        rwa [namedItem, Bool.not_eq_true'] at this
      cases hv : ps.lookup n with
      | none =>
        exact ⟨n, hv, List.mem_cons_self _ _, by simp [substItemsAux, hn, hv]⟩
      | some v =>
        have hrest : covered ps rest = false := by
          simpa [covered, coveredItem, hn, hv] using hmiss
        obtain ⟨k, hk, hmem, hsub⟩ := ih hnamed.2 hrest
        exact ⟨k, hk, List.mem_cons_of_mem _ hmem,
          by simp [substItemsAux, hn, hv, hsub, Except.map]⟩

theorem validateList_of_all {elem : TypeDesc}
    (ih : ∀ j, conforms elem j = true → validateField elem j = some j) :
    ∀ xs : List Json, xs.all (conforms elem) = true →
      validateList (validateField elem) xs = some xs := by
  intro xs
  induction xs with
  | nil => intro h; rfl
  | cons x rest ihx =>
    intro h
    rw [List.all_cons, Bool.and_eq_true] at h
    simp [validateList, ih x h.1, ihx h.2]

theorem validateField_of_conforms (t : TypeDesc) :
    ∀ j, conforms t j = true → validateField t j = some j := by
  induction t with
  | noneT => intro j h; cases j <;> first | rfl | simp [conforms] at h
  | intT => intro j h; cases j <;> first | rfl | simp [conforms] at h
  | strT => intro j h; cases j <;> first | rfl | simp [conforms] at h
  | boolT => intro j h; cases j <;> first | rfl | simp [conforms] at h
  | listT elem ih =>
    intro j h
    cases j with
    | arr xs =>
      simp only [conforms] at h
      simp [validateField, validateList_of_all ih xs h]
    | null => simp [conforms] at h
    | bool b => simp [conforms] at h
    | num n => simp [conforms] at h
    | str s => simp [conforms] at h

/-! Claim theorems. -/

/-- C1: for every request whose middleware chain yields a response with status code
exactly 200 and whose body parses as JSON conforming to the expected type
descriptor, `send` returns a decoded value structurally equal to the parsed body
(the validated value itself, not a raw untyped blob). -/
theorem send_200_conforming_returns_parsed_body (st : ApiClient) (request : AsyncRequest)
    (type_ : TypeDesc) (resp : AsyncResponse) (j : Json)
    (hchain : st.middleware request st.send_inner = .ok resp)
    (hstatus : resp.status_code = HTTP_200_OK)
    (hbody : resp.body = Body.json j)
    (hconf : conforms type_ j = true) :
    (st.send request type_).1 = .ok j := by
  have hval : _ResultMaker type_ j = .ok j := by
    rw [_ResultMaker, validateField_of_conforms type_ j hconf]
  simp [ApiClient.send, hchain, hstatus, AsyncResponse.json, hbody, hval]

/-- Witness for C1: a transport answering 200 with body `[1, 2]` and expected type
list-of-int makes `send` return exactly that parsed list. -/
theorem send_200_conforming_returns_parsed_body_witness :
    (clientOkList.send reqDemo (.listT .intT)).1 = .ok (Json.arr [Json.num 1, Json.num 2]) :=
  send_200_conforming_returns_parsed_body clientOkList reqDemo (.listT .intT) respOkList
    (Json.arr [Json.num 1, Json.num 2]) rfl rfl rfl rfl

/-- C2: for every response whose status code is anything other than 200, `send`
raises `UnexpectedResponse` carrying that exact status code (and the raw
body/headers); the expected type plays no role, no decoding is attempted, and the
single uniform formula below is the handling every non-200 code receives. -/
theorem send_non200_raises_unexpected_response (st : ApiClient) (request : AsyncRequest)
    (type_ : TypeDesc) (resp : AsyncResponse)
    (hchain : st.middleware request st.send_inner = .ok resp)
    (hstatus : resp.status_code ≠ HTTP_200_OK) :
    (st.send request type_).1
      = .error (.UnexpectedResponse resp.status_code resp.body resp.headers) := by
  simp [ApiClient.send, hchain, hstatus, UnexpectedResponse.for_response]

/-- Witness for C2: a 404 response surfaces as `UnexpectedResponse` carrying 404. -/
theorem send_non200_raises_unexpected_response_witness :
    (client404.send reqDemo .strT).1
      = .error (.UnexpectedResponse 404 (.raw "not found") [("x-h", "v")]) :=
  send_non200_raises_unexpected_response client404 reqDemo .strT resp404 rfl (by decide)

/-- C3 (amended): a transport-level failure during the actual send is re-raised as
`ApiRequestException` wrapping the transport exception, whatever the expected type
(no decoding is attempted), and this error is never of the unexpected-response
kind; however it is an instance of the same exception class as the one wrapping
validation failures, so the transport kind and the validation kind are
distinguishable only through the wrapped cause. -/
theorem send_transport_failure_wrapped (st : ApiClient) (request : AsyncRequest)
    (type_ : TypeDesc) (e : Exn)
    (hmw : st.middleware = BaseMiddleware)
    (htr : st._async_client request = .error e) :
    (st.send request type_).1 = .error (.ApiRequestException e)
    ∧ taxonomyKind (Exn.ApiRequestException e) ≠ some "UnexpectedResponseError"
    ∧ ∀ s b hd, Exn.ApiRequestException e ≠ .UnexpectedResponse s b hd := by
  refine ⟨?_, ?_, ?_⟩
  · simp [ApiClient.send, hmw, BaseMiddleware, ApiClient.send_inner, htr]
  · cases e <;> simp [taxonomyKind]
  · intro s b hd h
    cases h

/-- Witness for C3 (amended): a connection-refused transport failure. -/
theorem send_transport_failure_wrapped_witness :
    (clientConnRefused.send reqDemo .intT).1
      = .error (.ApiRequestException (.TransportError "connection refused"))
    ∧ taxonomyKind (Exn.ApiRequestException (.TransportError "connection refused"))
      ≠ some "UnexpectedResponseError"
    ∧ ∀ s b hd, Exn.ApiRequestException (.TransportError "connection refused")
      ≠ .UnexpectedResponse s b hd :=
  send_transport_failure_wrapped clientConnRefused reqDemo .intT
    (.TransportError "connection refused") rfl rfl

/-- Counterexample for C3 as stated: a transport failure and a validation failure
(a 200 response whose body `[1, 2]` is a list, which no pydantic coercion turns
into a string) both reach the caller as instances of the one class
`ApiRequestException`, so the transport error kind is not distinct from the
validation-error kind and the three kinds are not mutually exclusive as exception
classes. -/
theorem transport_and_validation_same_exception_class :
    (clientConnRefused.send reqDemo .strT).1
      = .error (.ApiRequestException (.TransportError "connection refused"))
    ∧ (clientOkList.send reqDemo .strT).1
      = .error (.ApiRequestException (.ValidationError [validationMsg .strT]))
    ∧ exnClass (.ApiRequestException (.TransportError "connection refused"))
      = exnClass (.ApiRequestException (.ValidationError [validationMsg .strT])) :=
  ⟨rfl, rfl, rfl⟩

/-- C4: adding stages M1 then M2 makes M2 the outermost wrapper: the composed head
calls M2 first, and M2's continuation runs M1 around the rest of the chain, so M2
observes the request first and the response last.  The second conjunct observes
this with marker stages over a fresh client: an arbitrary continuation receives
the request with M1's marker applied after M2's, and the final response carries
M2's marker applied after M1's. -/
theorem add_middleware_onion_order :
    (∀ (st : ApiClient) (M1 M2 : MiddlewareT) (request : AsyncRequest) (call_next : Send),
      ((st.add_middleware M1).add_middleware M2).middleware request call_next
        = M2 request (fun r => M1 r (fun r2 => st.middleware r2 call_next)))
    ∧ (∀ (host : Option String) (tr call_next : Send) (n1 n2 : String) (request : AsyncRequest),
      (((ApiClient.init host tr).add_middleware (markerStage n1)).add_middleware
          (markerStage n2)).middleware request call_next
        = match call_next (addMarkerReq n1 (addMarkerReq n2 request)) with
          | .ok response => .ok (addMarkerResp n2 (addMarkerResp n1 response))
          | .error e => .error e) := by
  constructor
  · intro st M1 M2 request call_next
    rfl
  · intro host tr call_next n1 n2 request
    simp only [ApiClient.add_middleware, ApiClient.init, markerStage, BaseMiddleware]
    cases h : call_next (addMarkerReq n1 (addMarkerReq n2 request)) with
    | ok response => simp [h]
    | error e => simp [h]

/-- C5: whenever every placeholder of the template is a named field covered by the
params mapping, substitution succeeds, the resolved URL handed to `send` is the
host (absent host meaning the empty string) concatenated with the substituted
template, the substituted string is uniquely determined by the inputs, and it
contains no brace character whenever neither the template literals nor the
parameter values contribute one.  The final conjunct is the spec's concrete
scenario. -/
theorem request_resolves_covered_template (st : ApiClient) (type_ : TypeDesc)
    (method template : String) (params : List (String × String)) (kwargs : Kwargs)
    (items : List FmtItem)
    (hp : parseFmt template = .ok items)
    (hcov : covered params items = true) :
    (∃ s : String,
      formatMap template params = .ok s
      ∧ (∀ s2, formatMap template params = .ok s2 → s2 = s)
      ∧ st.request type_ method template (some params) kwargs
          = st.send { method := method, url := st.host.getD "" ++ s,
                      headers := kwargs.headers, content := kwargs.content } type_
      ∧ (items.all braceFreeLit = true →
         params.all (fun p => braceFreeStr p.2) = true →
         braceFreeStr s = true))
    ∧ resolveUrl (some "https://api.example.com") "/pets/\x7bid\x7d" [("id", "42")]
        = .ok "https://api.example.com/pets/42" := by
  refine ⟨?_, rfl⟩
  obtain ⟨l, hl, hbr⟩ := substItemsAux_covered_ok items params hcov
  have hfmt : formatMap template params = .ok (String.mk l) := by
    rw [formatMap, hp]
    simp [hl, Except.map]
  refine ⟨String.mk l, hfmt, ?_, ?_, ?_⟩
  · intro s2 h2
    rw [hfmt] at h2
    exact (Except.ok.inj h2).symm
  · simp [ApiClient.request, resolveUrl, hfmt, Except.map]
  · intro h1 h2
    exact hbr h1 h2

/-- Witness for C5 at the spec's scenario inputs. -/
theorem request_resolves_covered_template_witness :
    (∃ s : String,
      formatMap "/pets/\x7bid\x7d" [("id", "42")] = .ok s
      ∧ (∀ s2, formatMap "/pets/\x7bid\x7d" [("id", "42")] = .ok s2 → s2 = s)
      ∧ clientScenario.request .noneT "GET" "/pets/\x7bid\x7d" (some [("id", "42")]) kwargsDemo
          = clientScenario.send { method := "GET",
                                  url := clientScenario.host.getD "" ++ s,
                                  headers := kwargsDemo.headers,
                                  content := kwargsDemo.content } .noneT
      ∧ (petItems.all braceFreeLit = true →
         [("id", "42")].all (fun p => braceFreeStr p.2) = true →
         braceFreeStr s = true))
    ∧ resolveUrl (some "https://api.example.com") "/pets/\x7bid\x7d" [("id", "42")]
        = .ok "https://api.example.com/pets/42" :=
  request_resolves_covered_template clientScenario .noneT "GET" "/pets/\x7bid\x7d"
    [("id", "42")] kwargsDemo petItems rfl (by decide)

/-- C6: when the template has a named placeholder the params mapping does not
cover, substitution fails deterministically with a `KeyError` for an uncovered
placeholder, the error propagates to the caller of `request`, and no request is
dispatched: the outcome is the same for every client state, hence for every
transport and middleware chain, and the state comes back untouched. -/
theorem request_missing_param_raises (st : ApiClient) (type_ : TypeDesc)
    (method template : String) (params : List (String × String)) (kwargs : Kwargs)
    (items : List FmtItem)
    (hp : parseFmt template = .ok items)
    (hnamed : items.all namedItem = true)
    (hmiss : covered params items = false) :
    ∃ k, params.lookup k = none ∧ FmtItem.field k ∈ items
      ∧ formatMap template params = .error (.keyError k)
      ∧ st.request type_ method template (some params) kwargs = (.error (.KeyError k), st) := by
  obtain ⟨k, hk, hmem, hsub⟩ := substItemsAux_missing items params hnamed hmiss
  have hfmt : formatMap template params = .error (.keyError k) := by
    rw [formatMap, hp]
    simp [hsub, Except.map]
  refine ⟨k, hk, hmem, hfmt, ?_⟩
  simp [ApiClient.request, resolveUrl, hfmt, Except.map, FmtErr.toExn]

/-- Witness for C6: the scenario template with an empty params mapping. -/
theorem request_missing_param_raises_witness :
    ∃ k, ([] : List (String × String)).lookup k = none ∧ FmtItem.field k ∈ petItems
      ∧ formatMap "/pets/\x7bid\x7d" [] = .error (.keyError k)
      ∧ clientScenario.request .noneT "GET" "/pets/\x7bid\x7d" (some []) kwargsDemo
          = (.error (.KeyError k), clientScenario) :=
  request_missing_param_raises clientScenario .noneT "GET" "/pets/\x7bid\x7d" [] kwargsDemo
    petItems rfl (by decide) (by decide)

/-- C7 (amended): for every 200 response whose body parses as JSON but fails
pydantic validation against the expected type descriptor, `send` raises
`ApiRequestException` wrapping the pydantic `ValidationError` with its field-level
diagnostics and returns no value.  Validation failure is strictly narrower than
failure of structural conformance: pydantic v1 silently coerces coercible values
(for example an int body against a str field), so those bodies do not raise. -/
theorem send_200_invalid_body_raises_validation (st : ApiClient) (request : AsyncRequest)
    (type_ : TypeDesc) (resp : AsyncResponse) (j : Json)
    (hchain : st.middleware request st.send_inner = .ok resp)
    (hstatus : resp.status_code = HTTP_200_OK)
    (hbody : resp.body = Body.json j)
    (hval : validateField type_ j = none) :
    (st.send request type_).1
      = .error (.ApiRequestException (.ValidationError [validationMsg type_])) := by
  simp [ApiClient.send, hchain, hstatus, AsyncResponse.json, hbody, _ResultMaker, hval]

/-- Witness for C7 (amended): a 200 response with the list body `[1, 2]` against
expected type string, which no coercion rescues. -/
theorem send_200_invalid_body_raises_validation_witness :
    (clientOkList.send reqDemo .strT).1
      = .error (.ApiRequestException (.ValidationError [validationMsg .strT])) :=
  send_200_invalid_body_raises_validation clientOkList reqDemo .strT respOkList
    (Json.arr [Json.num 1, Json.num 2]) rfl rfl rfl rfl

/-- Counterexample for C7 as stated: the body `3` does not conform to the expected
type string, yet `send` raises nothing — pydantic v1 silently coerces the int to
the string "3" and `send` returns that value. -/
theorem send_200_nonconforming_body_coerced_not_raised :
    conforms .strT (Json.num 3) = false
    ∧ (clientNum.send reqDemo .strT).1 = .ok (Json.str "3")
    ∧ (clientNum.send reqDemo .strT).1 ≠ .ok (Json.num 3) := by
  refine ⟨rfl, rfl, ?_⟩
  intro h
  rw [show (clientNum.send reqDemo .strT).1 = .ok (Json.str "3") from rfl] at h
  cases Except.ok.inj h

/-- C8 (amended): when the expected type descriptor is Python `None` and the chain
yields a 200 response, `send` returns `None` exactly when the body parses as the
JSON value `null` (the pydantic field annotated `NoneType` admits only `null`);
it does not return `None` regardless of the body. -/
theorem send_noneT_null_body_returns_none (st : ApiClient) (request : AsyncRequest)
    (resp : AsyncResponse)
    (hchain : st.middleware request st.send_inner = .ok resp)
    (hstatus : resp.status_code = HTTP_200_OK)
    (hbody : resp.body = Body.json Json.null) :
    (st.send request .noneT).1 = .ok Json.null := by
  simp [ApiClient.send, hchain, hstatus, AsyncResponse.json, hbody, _ResultMaker, validateField]

/-- Witness for C8 (amended): a 200 response with body `null`. -/
theorem send_noneT_null_body_returns_none_witness :
    (clientNull.send reqDemo .noneT).1 = .ok Json.null :=
  send_noneT_null_body_returns_none clientNull reqDemo respNull rfl rfl rfl

/-- Counterexample for C8 as stated: with expected type `None` and a 200 response
whose body is the JSON number `3` (not `null`), `send` raises the wrapped
validation error instead of returning `None` — the body content does matter. -/
theorem send_noneT_nonnull_body_raises :
    (clientNum.send reqDemo .noneT).1
      = .error (.ApiRequestException (.ValidationError [validationMsg .noneT]))
    ∧ (clientNum.send reqDemo .noneT).1 ≠ .ok Json.null := by
  refine ⟨rfl, ?_⟩
  intro h
  rw [show (clientNum.send reqDemo .noneT).1
      = .error (.ApiRequestException (.ValidationError [validationMsg .noneT])) from rfl] at h
  cases h

/-- C9 (amended): with the default middleware chain, every invocation of `request`
yields exactly one outcome among: a decoded value, an `ApiRequestException`
(wrapping the transport failure or the validation failure), an
`UnexpectedResponse`, the raw `JSONDecodeError` (when a 200 response's body is not
parseable as JSON — this one escapes the three-kind taxonomy), or the formatting
error of a failed path substitution. -/
theorem request_outcome_classification (host : Option String) (tr : Send) (type_ : TypeDesc)
    (method url : String) (path_params : Option (List (String × String))) (kwargs : Kwargs) :
    (∃ v, ((ApiClient.init host tr).request type_ method url path_params kwargs).1 = .ok v)
    ∨ (∃ c, ((ApiClient.init host tr).request type_ method url path_params kwargs).1
        = .error (.ApiRequestException c))
    ∨ (∃ s b hd, ((ApiClient.init host tr).request type_ method url path_params kwargs).1
        = .error (.UnexpectedResponse s b hd))
    ∨ (∃ d, ((ApiClient.init host tr).request type_ method url path_params kwargs).1
        = .error (.JSONDecodeError d))
    ∨ (∃ e, ((ApiClient.init host tr).request type_ method url path_params kwargs).1
        = .error (FmtErr.toExn e)
        ∧ formatMap url (path_params.getD []) = .error e) := by
  cases hfm : formatMap url (path_params.getD []) with
  | error e =>
    refine Or.inr (Or.inr (Or.inr (Or.inr ⟨e, ?_, rfl⟩)))
    simp [ApiClient.request, resolveUrl, ApiClient.init, hfm, Except.map]
  | ok s =>
    have hreq : ((ApiClient.init host tr).request type_ method url path_params kwargs)
        = ((ApiClient.init host tr).send
            { method := method, url := host.getD "" ++ s,
              headers := kwargs.headers, content := kwargs.content } type_) := by
      simp [ApiClient.request, resolveUrl, ApiClient.init, hfm, Except.map]
    rw [hreq]
    cases htr : tr { method := method, url := host.getD "" ++ s,
                     headers := kwargs.headers, content := kwargs.content } with
    | error e =>
      refine Or.inr (Or.inl ⟨e, ?_⟩)
      simp [ApiClient.send, ApiClient.init, BaseMiddleware, ApiClient.send_inner, htr]
    | ok resp =>
      by_cases hs : resp.status_code = HTTP_200_OK
      · cases hb : resp.body with
        | raw d =>
          refine Or.inr (Or.inr (Or.inr (Or.inl ⟨d, ?_⟩)))
          simp [ApiClient.send, ApiClient.init, BaseMiddleware, ApiClient.send_inner, htr,
            hs, AsyncResponse.json, hb]
        | json j =>
          cases hv : validateField type_ j with
          | some v =>
            exact Or.inl ⟨v, by simp [ApiClient.send, ApiClient.init, BaseMiddleware,
              ApiClient.send_inner, htr, hs, AsyncResponse.json, hb, _ResultMaker, hv]⟩
          | none =>
            refine Or.inr (Or.inl ⟨.ValidationError [validationMsg type_], ?_⟩)
            simp [ApiClient.send, ApiClient.init, BaseMiddleware, ApiClient.send_inner, htr,
              hs, AsyncResponse.json, hb, _ResultMaker, hv]
      · refine Or.inr (Or.inr (Or.inl ⟨resp.status_code, resp.body, resp.headers, ?_⟩))
        simp [ApiClient.send, ApiClient.init, BaseMiddleware, ApiClient.send_inner, htr,
          hs, UnexpectedResponse.for_response]

/-- Counterexample for C9 as stated: a 200 response whose body is not parseable as
JSON makes `request` raise the bare `JSONDecodeError`, which belongs to none of
the three kinds of the taxonomy — a fourth outcome reaches the caller. -/
theorem request_nonjson_body_escapes_taxonomy :
    (clientRaw.request .intT "GET" "/x" none kwargsDemo).1 = .error (.JSONDecodeError "oops")
    ∧ taxonomyKind (.JSONDecodeError "oops") = none
    ∧ exnClass (.JSONDecodeError "oops") ≠ "ApiRequestException"
    ∧ exnClass (.JSONDecodeError "oops") ≠ "UnexpectedResponse" := by
  refine ⟨rfl, rfl, ?_, ?_⟩ <;> simp [exnClass]

/-- C10: `request` and `send` leave the facade configuration — host, transport
instance and middleware chain head — exactly as they found it, whether they return
a value or an error, and `add_middleware` changes nothing but the middleware
chain head. -/
theorem client_config_frame (st : ApiClient) (type_ : TypeDesc) (method url : String)
    (path_params : Option (List (String × String))) (kwargs : Kwargs)
    (request : AsyncRequest) (type2 : TypeDesc) (m : MiddlewareT) :
    (st.request type_ method url path_params kwargs).2 = st
    ∧ (st.send request type2).2 = st
    ∧ (st.add_middleware m).host = st.host
    ∧ (st.add_middleware m)._async_client = st._async_client := by
  refine ⟨?_, rfl, rfl, rfl⟩
  cases hE : resolveUrl st.host url (path_params.getD []) <;>
    simp [ApiClient.request, ApiClient.send, hE]
